import Mathlib

/-!
Shallow embedding of `src/app.py` (a small Flask application that forwards
text to an LLM provider and keeps an in-memory history list).

Python values appearing in request bodies and history records are modelled
by the `Json` type.  Each Flask handler becomes a pure Lean function from
(client-configured flag, request body, provider result, current history
list) to a result holding the HTTP response, the new history list, and the
list of observable side effects (network calls, file writes).  The source
performs no file I/O at all; the `Effect.fileWrite` constructor exists so
that its absence is expressible.
-/

/-- JSON-ish Python values (dicts as association lists in source order). -/
inductive Json where
  | null : Json
  | bool (b : Bool) : Json
  | num (n : Int) : Json
  | str (s : String) : Json
  | arr (l : List Json) : Json
  | obj (l : List (String × Json)) : Json

/-- Python truthiness (`if not data`) for the modelled values. -/
def truthy : Json → Bool
  | Json.null => false
  | Json.bool b => b
  | Json.num n => n != 0
  | Json.str s => s != ""
  | Json.arr l => !l.isEmpty
  | Json.obj l => !l.isEmpty

/-- The whitespace set of Python's `str.split()` / `str.strip()`:
tab through carriage return, space, the C1 separators, and the Unicode
space characters. -/
def isPyWS (c : Char) : Bool :=
  let v := c.toNat
  (9 ≤ v && v ≤ 13) || v = 32 || (28 ≤ v && v ≤ 31) || v = 0x85 || v = 0xa0 ||
  v = 0x1680 || (0x2000 ≤ v && v ≤ 0x200a) || v = 0x2028 || v = 0x2029 ||
  v = 0x202f || v = 0x205f || v = 0x3000

/-- Split a character list at characters satisfying `p`, discarding empty
pieces, accumulating the current (reversed) token in `acc`. -/
def splitDropAux (p : Char → Bool) : List Char → List Char → List String
  | [], acc => if acc.isEmpty then [] else [String.mk acc.reverse]
  | c :: cs, acc =>
    if p c then
      if acc.isEmpty then splitDropAux p cs []
      else String.mk acc.reverse :: splitDropAux p cs []
    else splitDropAux p cs (c :: acc)

/-- Split on characters satisfying `p`, discarding empty tokens. -/
def splitDrop (p : Char → Bool) (s : String) : List String :=
  splitDropAux p s.toList []

/-- Python's `s.split()` (no arguments): split on whitespace, drop empties. -/
def pySplit (s : String) : List String := splitDrop isPyWS s

/-- Python's `s.strip()`: remove leading and trailing whitespace. -/
def pyStrip (s : String) : String :=
  String.mk (((s.toList.dropWhile isPyWS).reverse.dropWhile isPyWS).reverse)

/-- Python's `s.replace(old, new)` for single-character arguments. -/
def replaceChar (old new : Char) (s : String) : String :=
  String.mk (s.toList.map (fun c => if c = old then new else c))

/-- Whether `pat` occurs as a contiguous sublist (Python's `pat in s` on
strings, at character-list level). -/
def hasSub (pat : List Char) : List Char → Bool
  | [] => pat.isEmpty
  | c :: cs => List.isPrefixOf pat (c :: cs) || hasSub pat cs

/-- Word count of the plot endpoint (`app.py` line 102):
`len(received_text.replace('、', ' ').split())`. -/
def plotWordCount (s : String) : Nat :=
  (pySplit (replaceChar '、' ' ' s)).length

/-- Word count of the name-generation endpoint (`app.py` line 158):
`len(received_text.replace('、', ' ').replace(',', ' ').split())`. -/
def nameWordCount (s : String) : Nat :=
  (pySplit (replaceChar ',' ' ' (replaceChar '、' ' ' s))).length

/-- Word count of the thesaurus endpoint (`app.py` line 262), same code as
the name-generation one. -/
def thesaurusWordCount (s : String) : Nat :=
  (pySplit (replaceChar ',' ' ' (replaceChar '、' ' ' s))).length

/-- Modelled from the spec wording for comparison (not from the source):
tokenize splitting on ASCII space and the full-width comma only, discarding
empty tokens. -/
def specPlotTokens (s : String) : List String :=
  splitDrop (fun c => c = ' ' || c = '、') s

/-- The `message` object of a chat-completion choice. -/
structure Message where
  content : String

/-- A choice of the provider response; `message` may be absent/None. -/
structure Choice where
  message : Option Message

/-- The provider's chat-completion response. -/
structure ChatCompletion where
  choices : List Choice

/-- Outcome of the outbound provider call: a response, or any raised
exception (network failure, non-2xx, malformed response). -/
inductive ProviderResult where
  | ok (c : ChatCompletion) : ProviderResult
  | raise : ProviderResult

/-- The truthiness test `chat_completion.choices and
chat_completion.choices[0].message` of the source. -/
def hasContent (c : ChatCompletion) : Bool :=
  match c.choices with
  | [] => false
  | ch :: _ => ch.message.isSome

/-- `chat_completion.choices[0].message.content`; only used when
`hasContent` holds, the default is never reached. -/
def firstContent (c : ChatCompletion) : String :=
  match c.choices with
  | [] => ""
  | ch :: _ =>
    match ch.message with
    | none => ""
    | some m => m.content

/-- Observable side effects of a handler. -/
inductive Effect where
  | netCall (model systemPrompt userPrompt : String) : Effect
  | fileWrite (path content : String) : Effect

/-- Whether an effect is a network call (and hence not a file write). -/
def Effect.isNetCall : Effect → Bool
  | Effect.netCall _ _ _ => true
  | Effect.fileWrite _ _ => false

/-- HTTP responses: a JSON body produced by a handler, a generic framework
error page (uncaught exception, unknown route, disallowed method), or a
static HTML page. -/
inductive Response where
  | json (status : Nat) (body : Json) : Response
  | framework (status : Nat) : Response
  | html (file : String) : Response

/-- Status code of a response (static pages are 200). -/
def Response.status : Response → Nat
  | Response.json st _ => st
  | Response.framework st => st
  | Response.html _ => 200

/-- Result of handling one request: the response, the history list after
the request, and the observable side effects. -/
structure HResult where
  resp : Response
  log : List Json
  effects : List Effect

/-- An inbound request body: syntactically invalid JSON (on which
`request.get_json()` raises), or a parsed JSON value. -/
inductive Body where
  | malformed : Body
  | parsed (data : Json) : Body

/-- Outcome of the shared prologue `if not data or 'text' not in data` /
`received_text = data['text']` / `received_text.strip()`:
either a 400 "missing text", an uncaught Python TypeError/AttributeError,
or the fields of the dict together with the string text. -/
inductive BodyCheck where
  | missingText : BodyCheck
  | pyError : BodyCheck
  | ok (fields : List (String × Json)) (text : String) : BodyCheck

/-- Model of lines 91-96 of `app.py` (identical in all four handlers):
`not data` short-circuits; `'text' in data` raises TypeError on non-
container values; `data['text']` raises TypeError on non-dicts; the later
`received_text.strip()` raises AttributeError on non-string text. -/
def checkBody (data : Json) : BodyCheck :=
  if !truthy data then BodyCheck.missingText
  else
    match data with
    | Json.obj l =>
      match l.find? (fun p => p.1 = "text") with
      | none => BodyCheck.missingText
      | some (_, Json.str s) => BodyCheck.ok l s
      | some _ => BodyCheck.pyError
    | Json.arr l =>
      if l.any (fun v => match v with | Json.str s => s = "text" | _ => false)
      then BodyCheck.pyError else BodyCheck.missingText
    | Json.str s =>
      if hasSub "text".toList s.toList then BodyCheck.pyError
      else BodyCheck.missingText
    | _ => BodyCheck.pyError

/-- Python's `dict.get(key, default)` on an association list. -/
def pyDictGet (l : List (String × Json)) (k : String) (dflt : Json) : Json :=
  match l.find? (fun p => p.1 = k) with
  | some p => p.2
  | none => dflt

/-- Key lookup in a JSON object (`none` on non-objects or absent keys). -/
def jsonLookup (j : Json) (k : String) : Option Json :=
  match j with
  | Json.obj l => (l.find? (fun p => p.1 = k)).map (fun p => p.2)
  | _ => none

/-- The initial value of the history list (`app.py` line 16): a fresh
process always starts with an empty in-memory list; nothing is loaded
from disk. -/
def history_log : List Json := []

/-- A history record as built by the source:
`{"user": u, "ai": a}` — two keys only. -/
def record (u a : String) : Json :=
  Json.obj [("user", Json.str u), ("ai", Json.str a)]

def keyErrMsg : String := "OpenRouter API key is not configured on the server."

def missingTextMsg : String := "Missing 'text' in request body"

def emptyTextMsg : String := "Input text cannot be empty"

def plotTooManyMsg : String := "キーワード（『、』やスペースで区切ったもの）を10個以内で入力してください。"

def plotOkMsg : String := "AIによってデータが処理されました。"

def aiErrMsg : String := "AIサービスとの通信中にエラーが発生しました。"

def sentinelMsg : String := "AIから有効な応答がありませんでした。"

def oneKeywordMsg : String := "キーワードを一つだけ入力してください。"

def nameOkMsg : String := "名前が生成されました。"

def proofreadEmptyMsg : String := "校正する文章を入力してください。"

def proofreadTooLongMsg : String := "入力できる文字数は500文字までです。"

def proofreadOkMsg : String := "文章が校正されました。"

def thesaurusEmptyMsg : String := "キーワードを入力してください。"

def thesaurusOkMsg : String := "類語が生成されました。"

def plotModel : String := "google/gemma-2-9b-it:free"

def nameModel : String := "mistralai/mistral-7b-instruct:free"

def proofreadModel : String := "google/gemma-2-9b-it:free"

def thesaurusModel : String := "google/gemma-2-9b-it:free"

/-- Error JSON body `{"error": msg}`. -/
def errBody (msg : String) : Json := Json.obj [("error", Json.str msg)]

/-- Success JSON body `{"message": m, "processed_text": p}`. -/
def okBody (message processed : String) : Json :=
  Json.obj [("message", Json.str message), ("processed_text", Json.str processed)]

def surnamePrompt (s : String) : String :=
  "あなたはプロの作家です。指定された漢字「" ++ s ++ "」を【苗字】に含んだ、創造的で記憶に残りやすいフルネームのキャラクター名を5つ提案してください。\n\n# 制約条件:\n- 提案は箇条書き（-）で記述してください。\n- それぞれの名前の横に、その名前が持つ雰囲気や由来を20字程度で簡潔に添えてください。\n- 一般的すぎない、物語の登場人物として魅力的な名前を重視してください。"

def givenNamePrompt (s : String) : String :=
  "あなたはプロの作家です。指定された漢字「" ++ s ++ "」を【名前】に含んだ、創造的で記憶に残りやすいフルネームのキャラクター名を5つ提案してください。\n\n# 制約条件:\n- 提案は箇条書き（-）で記述してください。\n- それぞれの名前の横に、その名前が持つ雰囲気や由来を20字程度で簡潔に添えてください。\n- 一般的すぎない、物語の登場人物として魅力的な名前を重視してください。"

def surnameHistText (s : String) : String := "「" ++ s ++ "」を苗字に含む名前"

def givenNameHistText (s : String) : String := "「" ++ s ++ "」を名前に含む名前"

def nameUserPrompt (s : String) : String := "「" ++ s ++ "」を含む名前を提案してください。"

def proofreadPrompt : String :=
  "あなたは優秀な編集者です。以下の文章を、誤字脱字の修正、文法的な誤りの訂正、句読点の適切な使用、より自然で分かりやすい表現への改善など、総合的に校正してください。\n\n# 指示:\n- 元の文章の意図やニュアンスを最大限尊重してください。\n- 校正後の文章のみを出力し、解説や前置きは一切含めないでください。"

def thesaurusPrompt (s : String) : String :=
  "あなたは語彙の専門家です。ユーザーから提供されたキーワード「" ++ s ++ "」について、類語や言い換え表現を3つ提案し、それぞれの違いが明確にわかるように解説してください。\n\n# 出力形式:\n- 提案する語彙ごとに見出しを付けてください。\n- それぞれの語彙について、「ニュアンス」と「使用例」を具体的に説明してください。\n- 全体を300字程度にまとめてください。"

def thesaurusUserPrompt (s : String) : String := "「" ++ s ++ "」の類語を解説付きで教えてください。"

/-- Handler of `POST /send_api` (`app.py` lines 80-137).  `cc` is whether
the OpenAI client was configured at startup (`client` is not None). -/
def send_api (cc : Bool) (body : Body) (pr : ProviderResult) (log : List Json) : HResult :=
  if !cc then ⟨Response.json 500 (errBody keyErrMsg), log, []⟩ else
  match body with
  | Body.malformed => ⟨Response.framework 400, log, []⟩
  | Body.parsed data =>
    match checkBody data with
    | BodyCheck.missingText => ⟨Response.json 400 (errBody missingTextMsg), log, []⟩
    | BodyCheck.pyError => ⟨Response.framework 500, log, []⟩
    | BodyCheck.ok l s =>
      if pyStrip s = "" then ⟨Response.json 400 (errBody emptyTextMsg), log, []⟩
      else if plotWordCount s > 10 then ⟨Response.json 400 (errBody plotTooManyMsg), log, []⟩
      else
        match pyDictGet l "context" (Json.str "") with
        | Json.str ctx =>
          let system_prompt := pyStrip ctx
          match pr with
          | ProviderResult.raise =>
            ⟨Response.json 500 (errBody aiErrMsg), log, [Effect.netCall plotModel system_prompt s]⟩
          | ProviderResult.ok comp =>
            if hasContent comp then
              ⟨Response.json 200 (okBody plotOkMsg (firstContent comp)),
               log ++ [record s (firstContent comp)],
               [Effect.netCall plotModel system_prompt s]⟩
            else
              ⟨Response.json 200 (okBody plotOkMsg sentinelMsg), log,
               [Effect.netCall plotModel system_prompt s]⟩
        | _ => ⟨Response.framework 500, log, []⟩

/-- Handler of `POST /api/generate_name` (`app.py` lines 140-194).  Note
that the history append (line 188) sits outside the content check, so a
record is appended even when the sentinel is used. -/
def generate_name_api (cc : Bool) (body : Body) (pr : ProviderResult) (log : List Json) : HResult :=
  if !cc then ⟨Response.json 500 (errBody keyErrMsg), log, []⟩ else
  match body with
  | Body.malformed => ⟨Response.framework 400, log, []⟩
  | Body.parsed data =>
    match checkBody data with
    | BodyCheck.missingText => ⟨Response.json 400 (errBody missingTextMsg), log, []⟩
    | BodyCheck.pyError => ⟨Response.framework 500, log, []⟩
    | BodyCheck.ok l s =>
      if pyStrip s = "" then ⟨Response.json 400 (errBody emptyTextMsg), log, []⟩
      else if nameWordCount s > 1 then ⟨Response.json 400 (errBody oneKeywordMsg), log, []⟩
      else
        let isSurname : Bool :=
          match pyDictGet l "type" (Json.str "surname") with
          | Json.str t => t = "surname"
          | _ => false
        let system_prompt := if isSurname then surnamePrompt s else givenNamePrompt s
        let history_user_text := if isSurname then surnameHistText s else givenNameHistText s
        match pr with
        | ProviderResult.raise =>
          ⟨Response.json 500 (errBody aiErrMsg), log,
           [Effect.netCall nameModel system_prompt (nameUserPrompt s)]⟩
        | ProviderResult.ok comp =>
          let processed := if hasContent comp then firstContent comp else sentinelMsg
          ⟨Response.json 200 (okBody nameOkMsg processed),
           log ++ [record history_user_text processed],
           [Effect.netCall nameModel system_prompt (nameUserPrompt s)]⟩

/-- Handler of `POST /api/proofread` (`app.py` lines 197-241). -/
def proofread_api (cc : Bool) (body : Body) (pr : ProviderResult) (log : List Json) : HResult :=
  if !cc then ⟨Response.json 500 (errBody keyErrMsg), log, []⟩ else
  match body with
  | Body.malformed => ⟨Response.framework 400, log, []⟩
  | Body.parsed data =>
    match checkBody data with
    | BodyCheck.missingText => ⟨Response.json 400 (errBody missingTextMsg), log, []⟩
    | BodyCheck.pyError => ⟨Response.framework 500, log, []⟩
    | BodyCheck.ok _ s =>
      if pyStrip s = "" then ⟨Response.json 400 (errBody proofreadEmptyMsg), log, []⟩
      else if s.length > 500 then ⟨Response.json 400 (errBody proofreadTooLongMsg), log, []⟩
      else
        match pr with
        | ProviderResult.raise =>
          ⟨Response.json 500 (errBody aiErrMsg), log,
           [Effect.netCall proofreadModel proofreadPrompt s]⟩
        | ProviderResult.ok comp =>
          if hasContent comp then
            ⟨Response.json 200 (okBody proofreadOkMsg (firstContent comp)),
             log ++ [record ("【校正依頼】\n" ++ s) ("【校正結果】\n" ++ firstContent comp)],
             [Effect.netCall proofreadModel proofreadPrompt s]⟩
          else
            ⟨Response.json 200 (okBody proofreadOkMsg sentinelMsg), log,
             [Effect.netCall proofreadModel proofreadPrompt s]⟩

/-- Handler of `POST /api/thesaurus` (`app.py` lines 244-289). -/
def thesaurus_api (cc : Bool) (body : Body) (pr : ProviderResult) (log : List Json) : HResult :=
  if !cc then ⟨Response.json 500 (errBody keyErrMsg), log, []⟩ else
  match body with
  | Body.malformed => ⟨Response.framework 400, log, []⟩
  | Body.parsed data =>
    match checkBody data with
    | BodyCheck.missingText => ⟨Response.json 400 (errBody missingTextMsg), log, []⟩
    | BodyCheck.pyError => ⟨Response.framework 500, log, []⟩
    | BodyCheck.ok _ s =>
      if pyStrip s = "" then ⟨Response.json 400 (errBody thesaurusEmptyMsg), log, []⟩
      else if thesaurusWordCount s > 1 then ⟨Response.json 400 (errBody oneKeywordMsg), log, []⟩
      else
        match pr with
        | ProviderResult.raise =>
          ⟨Response.json 500 (errBody aiErrMsg), log,
           [Effect.netCall thesaurusModel (thesaurusPrompt s) (thesaurusUserPrompt s)]⟩
        | ProviderResult.ok comp =>
          if hasContent comp then
            ⟨Response.json 200 (okBody thesaurusOkMsg (firstContent comp)),
             log ++ [record ("【類語検索】\n" ++ s) ("【類語解説】\n" ++ firstContent comp)],
             [Effect.netCall thesaurusModel (thesaurusPrompt s) (thesaurusUserPrompt s)]⟩
          else
            ⟨Response.json 200 (okBody thesaurusOkMsg sentinelMsg), log,
             [Effect.netCall thesaurusModel (thesaurusPrompt s) (thesaurusUserPrompt s)]⟩

/-- Handler of `GET /api/history` (`app.py` lines 75-77):
`jsonify(history_log)`. -/
def get_history (log : List Json) : HResult :=
  ⟨Response.json 200 (Json.arr log), log, []⟩

/-- The routes registered by the `@app.route` decorators of `app.py`, in
source order. -/
def routes : List (String × String) :=
  [("GET", "/"), ("GET", "/plot"), ("GET", "/history"), ("GET", "/proofread"),
   ("GET", "/api/history"), ("POST", "/send_api"), ("POST", "/api/generate_name"),
   ("POST", "/api/proofread"), ("POST", "/api/thesaurus")]

/-- Request dispatch: match the method and path against the registered
routes; a path registered only for another method yields the framework's
405 page, an unknown path its generic 404 page. -/
def appDispatch (m p : String) (cc : Bool) (body : Body) (pr : ProviderResult)
    (log : List Json) : HResult :=
  if m = "GET" ∧ p = "/" then ⟨Response.html "home.html", log, []⟩
  else if m = "GET" ∧ p = "/plot" then ⟨Response.html "index.html", log, []⟩
  else if m = "GET" ∧ p = "/history" then ⟨Response.html "history.html", log, []⟩
  else if m = "GET" ∧ p = "/proofread" then ⟨Response.html "proofread.html", log, []⟩
  else if m = "GET" ∧ p = "/api/history" then get_history log
  else if m = "POST" ∧ p = "/send_api" then send_api cc body pr log
  else if m = "POST" ∧ p = "/api/generate_name" then generate_name_api cc body pr log
  else if m = "POST" ∧ p = "/api/proofread" then proofread_api cc body pr log
  else if m = "POST" ∧ p = "/api/thesaurus" then thesaurus_api cc body pr log
  else if routes.any (fun r => r.2 == p) then ⟨Response.framework 405, log, []⟩
  else ⟨Response.framework 404, log, []⟩

/-- Request body carrying just a string `text` field. -/
def textBody (s : String) : Body := Body.parsed (Json.obj [("text", Json.str s)])

/-- Whether a response is a JSON body produced by a handler (as opposed to
a framework page or a static file). -/
def Response.isJson : Response → Bool
  | Response.json _ _ => true
  | _ => false

/-- Eleven single-letter tokens separated by newlines: no ASCII space and
no full-width comma anywhere. -/
def nlInput : String := "a\nb\nc\nd\ne\nf\ng\nh\ni\nj\nk"

/-- Success path of `send_api` on a body carrying only a `text` string that
passes both validation checks: the outcome depends on whether the provider
result carries content. -/
theorem send_api_ok_eq (s : String) (comp : ChatCompletion) (log : List Json)
    (hne : ¬ pyStrip s = "") (h10 : ¬ plotWordCount s > 10) :
    send_api true (textBody s) (ProviderResult.ok comp) log =
      if hasContent comp then
        ⟨Response.json 200 (okBody plotOkMsg (firstContent comp)),
         log ++ [record s (firstContent comp)], [Effect.netCall plotModel "" s]⟩
      else
        ⟨Response.json 200 (okBody plotOkMsg sentinelMsg), log,
         [Effect.netCall plotModel "" s]⟩ := by
  unfold send_api textBody
  simp only [checkBody, truthy, pyDictGet]
  simp [hne, h10, show pyStrip "" = "" from rfl]

/-- Provider-exception path of `send_api` on a validated `text`-only body:
the exception is caught and turned into a JSON 500. -/
theorem send_api_raise_eq (s : String) (log : List Json)
    (hne : ¬ pyStrip s = "") (h10 : ¬ plotWordCount s > 10) :
    send_api true (textBody s) ProviderResult.raise log =
      ⟨Response.json 500 (errBody aiErrMsg), log, [Effect.netCall plotModel "" s]⟩ := by
  unfold send_api textBody
  simp only [checkBody, truthy, pyDictGet]
  simp [hne, h10, show pyStrip "" = "" from rfl]

/-- Word-count rejection path of `send_api`. -/
theorem send_api_toomany_eq (s : String) (pr : ProviderResult) (log : List Json)
    (hne : ¬ pyStrip s = "") (h10 : plotWordCount s > 10) :
    send_api true (textBody s) pr log =
      ⟨Response.json 400 (errBody plotTooManyMsg), log, []⟩ := by
  unfold send_api textBody
  simp only [checkBody, truthy]
  simp [hne, h10]

/-- Success path of `generate_name_api` on a `text`-only body (the `type`
field is absent, so the default branch `surname` is taken); the history
append happens whether or not the completion carries content. -/
theorem generate_name_api_ok_eq (s : String) (comp : ChatCompletion) (log : List Json)
    (hne : ¬ pyStrip s = "") (h1 : ¬ nameWordCount s > 1) :
    generate_name_api true (textBody s) (ProviderResult.ok comp) log =
      ⟨Response.json 200 (okBody nameOkMsg (if hasContent comp then firstContent comp else sentinelMsg)),
       log ++ [record (surnameHistText s) (if hasContent comp then firstContent comp else sentinelMsg)],
       [Effect.netCall nameModel (surnamePrompt s) (nameUserPrompt s)]⟩ := by
  unfold generate_name_api textBody
  simp only [checkBody, truthy, pyDictGet]
  simp [hne, h1]

/-- Word-count rejection path of `generate_name_api`. -/
theorem generate_name_api_toomany_eq (s : String) (pr : ProviderResult) (log : List Json)
    (hne : ¬ pyStrip s = "") (h1 : nameWordCount s > 1) :
    generate_name_api true (textBody s) pr log =
      ⟨Response.json 400 (errBody oneKeywordMsg), log, []⟩ := by
  unfold generate_name_api textBody
  simp only [checkBody, truthy]
  simp [hne, h1]

/-- Success path of `proofread_api` on a validated `text`-only body. -/
theorem proofread_api_ok_eq (s : String) (comp : ChatCompletion) (log : List Json)
    (hne : ¬ pyStrip s = "") (h500 : ¬ s.length > 500) :
    proofread_api true (textBody s) (ProviderResult.ok comp) log =
      if hasContent comp then
        ⟨Response.json 200 (okBody proofreadOkMsg (firstContent comp)),
         log ++ [record ("【校正依頼】\n" ++ s) ("【校正結果】\n" ++ firstContent comp)],
         [Effect.netCall proofreadModel proofreadPrompt s]⟩
      else
        ⟨Response.json 200 (okBody proofreadOkMsg sentinelMsg), log,
         [Effect.netCall proofreadModel proofreadPrompt s]⟩ := by
  unfold proofread_api textBody
  simp only [checkBody, truthy]
  simp [hne, h500]

/-- Success path of `thesaurus_api` on a validated `text`-only body. -/
theorem thesaurus_api_ok_eq (s : String) (comp : ChatCompletion) (log : List Json)
    (hne : ¬ pyStrip s = "") (h1 : ¬ thesaurusWordCount s > 1) :
    thesaurus_api true (textBody s) (ProviderResult.ok comp) log =
      if hasContent comp then
        ⟨Response.json 200 (okBody thesaurusOkMsg (firstContent comp)),
         log ++ [record ("【類語検索】\n" ++ s) ("【類語解説】\n" ++ firstContent comp)],
         [Effect.netCall thesaurusModel (thesaurusPrompt s) (thesaurusUserPrompt s)]⟩
      else
        ⟨Response.json 200 (okBody thesaurusOkMsg sentinelMsg), log,
         [Effect.netCall thesaurusModel (thesaurusPrompt s) (thesaurusUserPrompt s)]⟩ := by
  unfold thesaurus_api textBody
  simp only [checkBody, truthy]
  simp [hne, h1]

/-- Helper: the length of every registered route path is below 29, the
length of the toggle-favorite path stem, so no toggle-favorite path equals
a registered path. -/
theorem togglePath_ne (id r : String) (h : r.length < 29) :
    ¬ ("/api/history/toggle_favorite/" ++ id = r) := by
  intro he
  have h2 := congrArg String.length he
  rw [String.length_append] at h2
  rw [show ("/api/history/toggle_favorite/" : String).length = 29 from rfl] at h2
  omega

/-- C1 (counterexample): the claim says a restart reloads the backing file
and reproduces the pre-restart sequence.  In the code, a successful
request through `/send_api` leaves one record in memory, the only effect
of the request is the network call (no file is written), yet a fresh
process starts from `history_log`, which the source initializes to the
empty list — length 0 against length 1 before the restart. -/
theorem restart_discards_appended_history :
    (send_api true (textBody "海 冒険") (ProviderResult.ok ⟨[⟨some ⟨"ある物語"⟩⟩]⟩) []).log
      = [record "海 冒険" "ある物語"] ∧
    ((send_api true (textBody "海 冒険") (ProviderResult.ok ⟨[⟨some ⟨"ある物語"⟩⟩]⟩) []).log).length = 1 ∧
    (send_api true (textBody "海 冒険") (ProviderResult.ok ⟨[⟨some ⟨"ある物語"⟩⟩]⟩) []).effects.all Effect.isNetCall = true ∧
    history_log = [] ∧
    history_log.length = 0 :=
  ⟨rfl, rfl, rfl, rfl, rfl⟩

/-- C1 (amended): the history store lives only in process memory; no
handler ever writes a file (every effect is a network call), and a fresh
process always starts with the empty list regardless of any previous
state. -/
theorem history_store_memory_only (cc : Bool) (body : Body) (pr : ProviderResult) (log : List Json) :
    history_log = [] ∧
    (send_api cc body pr log).effects.all Effect.isNetCall = true ∧
    (generate_name_api cc body pr log).effects.all Effect.isNetCall = true ∧
    (proofread_api cc body pr log).effects.all Effect.isNetCall = true ∧
    (thesaurus_api cc body pr log).effects.all Effect.isNetCall = true := by
  refine ⟨rfl, ?_, ?_, ?_, ?_⟩
  · unfold send_api
    repeat' split
    all_goals rfl
  · unfold generate_name_api
    repeat' split
    all_goals rfl
  · unfold proofread_api
    repeat' split
    all_goals rfl
  · unfold thesaurus_api
    repeat' split
    all_goals rfl

/-- C7: when no provider credential was configured at startup (`client`
is None, modelled by the flag `false`, fixed for the process lifetime),
every call to each of the four AI-backed endpoints returns the JSON 500
configuration error, leaves the history unchanged, and performs no
effect at all — in particular no network call. -/
theorem no_credential_all_calls_fail_500 (body : Body) (pr : ProviderResult) (log : List Json) :
    send_api false body pr log = ⟨Response.json 500 (errBody keyErrMsg), log, []⟩ ∧
    generate_name_api false body pr log = ⟨Response.json 500 (errBody keyErrMsg), log, []⟩ ∧
    proofread_api false body pr log = ⟨Response.json 500 (errBody keyErrMsg), log, []⟩ ∧
    thesaurus_api false body pr log = ⟨Response.json 500 (errBody keyErrMsg), log, []⟩ :=
  ⟨rfl, rfl, rfl, rfl⟩

/-- C10: the plot endpoint only replaces the full-width comma before
splitting on whitespace, so an ASCII comma stays attached to its token,
while the name-generation and thesaurus endpoints (whose counting code is
identical) additionally replace the ASCII comma: on "a,b" the plot counter
sees one token where the other two see two. -/
theorem tokenizer_difference_across_endpoints :
    plotWordCount "a,b" = 1 ∧
    nameWordCount "a,b" = 2 ∧
    thesaurusWordCount "a,b" = 2 ∧
    plotWordCount "a、b" = 2 ∧
    nameWordCount = thesaurusWordCount :=
  ⟨rfl, rfl, rfl, rfl, rfl⟩

/-- C2 (counterexample): a successful completion through `/send_api`
appends the record `{"user": ..., "ai": ...}`; looking up an `id` key or a
`favorite` key in the appended record yields nothing, against the claim
that every appended record carries a fresh id and a favorite flag. -/
theorem appended_record_lacks_id_and_favorite :
    (send_api true (textBody "海") (ProviderResult.ok ⟨[⟨some ⟨"処理結果"⟩⟩]⟩) []).log
      = [record "海" "処理結果"] ∧
    jsonLookup (record "海" "処理結果") "id" = none ∧
    jsonLookup (record "海" "処理結果") "favorite" = none :=
  ⟨rfl, rfl, rfl⟩

/-- C2 (amended): for every valid request whose completion carries
content, `/send_api` appends exactly one record holding only the `user`
and `ai` fields (no id, no favorite flag), and `GET /api/history`
afterwards returns the sequence with exactly one more record. -/
theorem append_adds_plain_record (s content : String) (log : List Json)
    (hne : ¬ pyStrip s = "") (h10 : ¬ plotWordCount s > 10) :
    (send_api true (textBody s) (ProviderResult.ok ⟨[⟨some ⟨content⟩⟩]⟩) log).log
      = log ++ [record s content] ∧
    ((send_api true (textBody s) (ProviderResult.ok ⟨[⟨some ⟨content⟩⟩]⟩) log).log).length
      = log.length + 1 ∧
    jsonLookup (record s content) "id" = none ∧
    jsonLookup (record s content) "favorite" = none ∧
    get_history ((send_api true (textBody s) (ProviderResult.ok ⟨[⟨some ⟨content⟩⟩]⟩) log).log)
      = ⟨Response.json 200 (Json.arr (log ++ [record s content])),
         log ++ [record s content], []⟩ := by
  rw [send_api_ok_eq s ⟨[⟨some ⟨content⟩⟩]⟩ log hne h10,
      if_pos (show hasContent ⟨[⟨some ⟨content⟩⟩]⟩ = true from rfl)]
  refine ⟨rfl, by simp, rfl, rfl, rfl⟩

/-- Witness for C2 (amended) at text "海", content "物語", empty log. -/
theorem append_adds_plain_record_witness :
    (send_api true (textBody "海") (ProviderResult.ok ⟨[⟨some ⟨"物語"⟩⟩]⟩) []).log
      = [] ++ [record "海" "物語"] ∧
    ((send_api true (textBody "海") (ProviderResult.ok ⟨[⟨some ⟨"物語"⟩⟩]⟩) []).log).length
      = List.length ([] : List Json) + 1 ∧
    jsonLookup (record "海" "物語") "id" = none ∧
    jsonLookup (record "海" "物語") "favorite" = none ∧
    get_history ((send_api true (textBody "海") (ProviderResult.ok ⟨[⟨some ⟨"物語"⟩⟩]⟩) []).log)
      = ⟨Response.json 200 (Json.arr ([] ++ [record "海" "物語"])),
         [] ++ [record "海" "物語"], []⟩ :=
  append_adds_plain_record "海" "物語" [] (by decide) (by decide)

/-- C3 (counterexample): `app.py` registers no route for
`POST /api/history/toggle_favorite/{id}`.  Dispatching such a request
against the app (history holding one record) yields the framework's
generic 404 page — not a JSON error body — leaves the store unchanged,
and the stored record carries no favorite flag that could be flipped. -/
theorem toggle_favorite_route_missing :
    appDispatch "POST" "/api/history/toggle_favorite/1" true (Body.parsed Json.null)
        (ProviderResult.ok ⟨[]⟩) [record "u" "a"]
      = ⟨Response.framework 404, [record "u" "a"], []⟩ ∧
    (appDispatch "POST" "/api/history/toggle_favorite/1" true (Body.parsed Json.null)
        (ProviderResult.ok ⟨[]⟩) [record "u" "a"]).resp.isJson = false ∧
    jsonLookup (record "u" "a") "favorite" = none :=
  ⟨rfl, rfl, rfl⟩

/-- C3 (amended): the application defines no toggle-favorite endpoint:
for every id and every state, `POST /api/history/toggle_favorite/{id}`
falls through all registered routes to the framework's generic 404 page,
the store is unchanged and nothing is flipped (records carry no favorite
flag at all). -/
theorem toggle_favorite_unrouted (id : String) (cc : Bool) (body : Body)
    (pr : ProviderResult) (log : List Json) :
    appDispatch "POST" ("/api/history/toggle_favorite/" ++ id) cc body pr log
      = ⟨Response.framework 404, log, []⟩ := by
  have h1 := togglePath_ne id "/" (by decide)
  have h2 := togglePath_ne id "/plot" (by decide)
  have h3 := togglePath_ne id "/history" (by decide)
  have h4 := togglePath_ne id "/proofread" (by decide)
  have h5 := togglePath_ne id "/api/history" (by decide)
  have h6 := togglePath_ne id "/send_api" (by decide)
  have h7 := togglePath_ne id "/api/generate_name" (by decide)
  have h8 := togglePath_ne id "/api/proofread" (by decide)
  have h9 := togglePath_ne id "/api/thesaurus" (by decide)
  unfold appDispatch
  simp [routes, h1, h2, h3, h4, h5, h6, h7, h8, h9,
        Ne.symm h1, Ne.symm h2, Ne.symm h3, Ne.symm h4, Ne.symm h5,
        Ne.symm h6, Ne.symm h7, Ne.symm h8, Ne.symm h9]

/-- C4 (counterexample): a wrongly-typed body `{"text": 123}` sent to
`/send_api` reaches `received_text.strip()` outside any try block, the
AttributeError propagates, and the framework's generic error page is
returned instead of a handler JSON error body. -/
theorem nonstring_text_uncaught :
    send_api true (Body.parsed (Json.obj [("text", Json.num 123)]))
        (ProviderResult.ok ⟨[]⟩) []
      = ⟨Response.framework 500, [], []⟩ ∧
    (send_api true (Body.parsed (Json.obj [("text", Json.num 123)]))
        (ProviderResult.ok ⟨[]⟩) []).resp.isJson = false :=
  ⟨rfl, rfl⟩

/-- C4 (amended): failures of the provider call are caught at the handler
boundary and converted to a JSON 500 body, and the explicit validation
checks return JSON 400 bodies, but a syntactically malformed JSON body or
a wrongly-typed `text` value raises before the try block and propagates to
the framework's generic error page. -/
theorem error_handling_partial (s : String) (pr : ProviderResult) (log : List Json)
    (hne : ¬ pyStrip s = "") (h10 : ¬ plotWordCount s > 10) :
    send_api true Body.malformed pr log = ⟨Response.framework 400, log, []⟩ ∧
    send_api true (Body.parsed (Json.obj [("text", Json.num 123)])) pr log
      = ⟨Response.framework 500, log, []⟩ ∧
    send_api true (Body.parsed Json.null) pr log
      = ⟨Response.json 400 (errBody missingTextMsg), log, []⟩ ∧
    send_api true (textBody s) ProviderResult.raise log
      = ⟨Response.json 500 (errBody aiErrMsg), log, [Effect.netCall plotModel "" s]⟩ :=
  ⟨rfl, rfl, rfl, send_api_raise_eq s log hne h10⟩

/-- Witness for C4 (amended) at text "企画", empty log. -/
theorem error_handling_partial_witness :
    send_api true Body.malformed (ProviderResult.ok ⟨[]⟩) []
      = ⟨Response.framework 400, [], []⟩ ∧
    send_api true (Body.parsed (Json.obj [("text", Json.num 123)])) (ProviderResult.ok ⟨[]⟩) []
      = ⟨Response.framework 500, [], []⟩ ∧
    send_api true (Body.parsed Json.null) (ProviderResult.ok ⟨[]⟩) []
      = ⟨Response.json 400 (errBody missingTextMsg), [], []⟩ ∧
    send_api true (textBody "企画") ProviderResult.raise []
      = ⟨Response.json 500 (errBody aiErrMsg), [], [Effect.netCall plotModel "" "企画"]⟩ :=
  error_handling_partial "企画" (ProviderResult.ok ⟨[]⟩) [] (by decide) (by decide)

/-- C5 (counterexample): "春 風" tokenizes into 2 words — at most 3, so
the claim says it passes the word-count check — yet the name-generation
endpoint rejects it with the 400 "one keyword only" error. -/
theorem name_two_words_rejected :
    nameWordCount "春 風" = 2 ∧
    generate_name_api true (textBody "春 風") (ProviderResult.ok ⟨[⟨some ⟨"名前案"⟩⟩]⟩) []
      = ⟨Response.json 400 (errBody oneKeywordMsg), [], []⟩ :=
  ⟨rfl, rfl⟩

/-- C5 (amended): the name-generation word-count ceiling is 1: a request
tokenizing into more than 1 word fails with the 400 "one keyword only"
error, and a request tokenizing into at most 1 word passes the word-count
check (reaching the provider and returning a 200 response). -/
theorem name_word_ceiling_one (s : String) (pr : ProviderResult)
    (comp : ChatCompletion) (log : List Json) (hne : ¬ pyStrip s = "") :
    (nameWordCount s > 1 →
      generate_name_api true (textBody s) pr log
        = ⟨Response.json 400 (errBody oneKeywordMsg), log, []⟩) ∧
    (nameWordCount s ≤ 1 →
      ((generate_name_api true (textBody s) (ProviderResult.ok comp) log).resp).status = 200) := by
  refine ⟨fun h => generate_name_api_toomany_eq s pr log hne h, fun h => ?_⟩
  rw [generate_name_api_ok_eq s comp log hne (by omega)]
  rfl

/-- Witness for C5 (amended) at the one-word text "光". -/
theorem name_word_ceiling_one_witness :
    (nameWordCount "光" > 1 →
      generate_name_api true (textBody "光") (ProviderResult.ok ⟨[]⟩) []
        = ⟨Response.json 400 (errBody oneKeywordMsg), [], []⟩) ∧
    (nameWordCount "光" ≤ 1 →
      ((generate_name_api true (textBody "光") (ProviderResult.ok ⟨[]⟩) []).resp).status = 200) :=
  name_word_ceiling_one "光" (ProviderResult.ok ⟨[]⟩) ⟨[]⟩ [] (by decide)

/-- C6 (counterexample): tokenized on ASCII space and the full-width comma
only — the claim's rule — the newline-separated input yields a single
token, at most 10, so the claim says word-count validation passes; the
code splits on all whitespace, counts 11 and rejects with the 400
too-many-keywords error. -/
theorem plot_newline_tokens_rejected :
    (specPlotTokens nlInput).length = 1 ∧
    plotWordCount nlInput = 11 ∧
    send_api true (textBody nlInput) (ProviderResult.ok ⟨[⟨some ⟨"プロット"⟩⟩]⟩) []
      = ⟨Response.json 400 (errBody plotTooManyMsg), [], []⟩ :=
  ⟨rfl, rfl, rfl⟩

/-- C6 (amended): the plot endpoint replaces the full-width comma by a
space and splits on whitespace (all of it, not only the ASCII space),
discarding empty tokens: more than 10 tokens fails with the 400
too-many-keywords error, at most 10 passes word-count validation (a 200
response when the provider call returns); "a, b, c, d, e, f, g, h, i, j,
k" yields 11 tokens and fails. -/
theorem plot_word_ceiling_ten (s : String) (pr : ProviderResult)
    (comp : ChatCompletion) (log : List Json) (hne : ¬ pyStrip s = "") :
    (plotWordCount s > 10 →
      send_api true (textBody s) pr log
        = ⟨Response.json 400 (errBody plotTooManyMsg), log, []⟩) ∧
    (plotWordCount s ≤ 10 →
      ((send_api true (textBody s) (ProviderResult.ok comp) log).resp).status = 200) ∧
    plotWordCount "a, b, c, d, e, f, g, h, i, j, k" = 11 := by
  refine ⟨fun h => send_api_toomany_eq s pr log hne h, fun h => ?_, rfl⟩
  rw [send_api_ok_eq s comp log hne (by omega)]
  by_cases hc : hasContent comp = true
  · rw [if_pos hc]
    rfl
  · rw [if_neg hc]
    rfl

/-- Witness for C6 (amended) at the one-word text "冒険". -/
theorem plot_word_ceiling_ten_witness :
    (plotWordCount "冒険" > 10 →
      send_api true (textBody "冒険") (ProviderResult.ok ⟨[]⟩) []
        = ⟨Response.json 400 (errBody plotTooManyMsg), [], []⟩) ∧
    (plotWordCount "冒険" ≤ 10 →
      ((send_api true (textBody "冒険") (ProviderResult.ok ⟨[]⟩) []).resp).status = 200) ∧
    plotWordCount "a, b, c, d, e, f, g, h, i, j, k" = 11 :=
  plot_word_ceiling_ten "冒険" (ProviderResult.ok ⟨[]⟩) ⟨[]⟩ [] (by decide)

/-- C8: for every request that passes validation on any of the four
AI-backed endpoints, if the provider responds successfully but the
response carries no message (empty choices list or missing message — the
condition the code tests), the handler returns a 200 JSON success body
whose processed_text is the fixed sentinel string. -/
theorem empty_completion_returns_sentinel (s : String) (comp : ChatCompletion) (log : List Json)
    (hne : ¬ pyStrip s = "") (hempty : hasContent comp = false)
    (h10 : ¬ plotWordCount s > 10) (h1 : ¬ nameWordCount s > 1)
    (h500 : ¬ s.length > 500) (ht1 : ¬ thesaurusWordCount s > 1) :
    (send_api true (textBody s) (ProviderResult.ok comp) log).resp
      = Response.json 200 (okBody plotOkMsg sentinelMsg) ∧
    (generate_name_api true (textBody s) (ProviderResult.ok comp) log).resp
      = Response.json 200 (okBody nameOkMsg sentinelMsg) ∧
    (proofread_api true (textBody s) (ProviderResult.ok comp) log).resp
      = Response.json 200 (okBody proofreadOkMsg sentinelMsg) ∧
    (thesaurus_api true (textBody s) (ProviderResult.ok comp) log).resp
      = Response.json 200 (okBody thesaurusOkMsg sentinelMsg) := by
  rw [send_api_ok_eq s comp log hne h10, generate_name_api_ok_eq s comp log hne h1,
      proofread_api_ok_eq s comp log hne h500, thesaurus_api_ok_eq s comp log hne ht1]
  simp [hempty]

/-- Witness for C8 at text "花" and the empty-choices completion. -/
theorem empty_completion_returns_sentinel_witness :
    (send_api true (textBody "花") (ProviderResult.ok ⟨[]⟩) []).resp
      = Response.json 200 (okBody plotOkMsg sentinelMsg) ∧
    (generate_name_api true (textBody "花") (ProviderResult.ok ⟨[]⟩) []).resp
      = Response.json 200 (okBody nameOkMsg sentinelMsg) ∧
    (proofread_api true (textBody "花") (ProviderResult.ok ⟨[]⟩) []).resp
      = Response.json 200 (okBody proofreadOkMsg sentinelMsg) ∧
    (thesaurus_api true (textBody "花") (ProviderResult.ok ⟨[]⟩) []).resp
      = Response.json 200 (okBody thesaurusOkMsg sentinelMsg) :=
  empty_completion_returns_sentinel "花" ⟨[]⟩ [] (by decide) rfl
    (by decide) (by decide) (by decide) (by decide)

/-- C9: when the provider response carries no message, the
name-generation handler still appends a history record pairing its
display text with the sentinel string (its append sits outside the
content check) and answers 200, while the plot, proofread and thesaurus
handlers leave the history unchanged in the same situation. -/
theorem empty_completion_history_divergence (s : String) (comp : ChatCompletion) (log : List Json)
    (hne : ¬ pyStrip s = "") (hempty : hasContent comp = false)
    (h10 : ¬ plotWordCount s > 10) (h1 : ¬ nameWordCount s > 1)
    (h500 : ¬ s.length > 500) (ht1 : ¬ thesaurusWordCount s > 1) :
    (generate_name_api true (textBody s) (ProviderResult.ok comp) log).log
      = log ++ [record (surnameHistText s) sentinelMsg] ∧
    ((generate_name_api true (textBody s) (ProviderResult.ok comp) log).resp).status = 200 ∧
    (send_api true (textBody s) (ProviderResult.ok comp) log).log = log ∧
    (proofread_api true (textBody s) (ProviderResult.ok comp) log).log = log ∧
    (thesaurus_api true (textBody s) (ProviderResult.ok comp) log).log = log := by
  rw [send_api_ok_eq s comp log hne h10, generate_name_api_ok_eq s comp log hne h1,
      proofread_api_ok_eq s comp log hne h500, thesaurus_api_ok_eq s comp log hne ht1]
  simp [hempty, Response.status]

/-- Witness for C9 at text "星" and the empty-choices completion. -/
theorem empty_completion_history_divergence_witness :
    (generate_name_api true (textBody "星") (ProviderResult.ok ⟨[]⟩) []).log
      = [] ++ [record (surnameHistText "星") sentinelMsg] ∧
    ((generate_name_api true (textBody "星") (ProviderResult.ok ⟨[]⟩) []).resp).status = 200 ∧
    (send_api true (textBody "星") (ProviderResult.ok ⟨[]⟩) []).log = [] ∧
    (proofread_api true (textBody "星") (ProviderResult.ok ⟨[]⟩) []).log = [] ∧
    (thesaurus_api true (textBody "星") (ProviderResult.ok ⟨[]⟩) []).log = [] :=
  empty_completion_history_divergence "星" ⟨[]⟩ [] (by decide) rfl
    (by decide) (by decide) (by decide) (by decide)
